import Mathlib

/-!
Verification of the todo-list HTTP service (`src/main.go`, with the second
observed variant of the same program in `src/unnamed/part_000`).

The service exposes four handlers over a single MongoDB collection:
`fetchTodos`, `createTodo`, `updateTodo`, `deleteTodo`.  Each handler is
embedded as a pure function.  The pieces the Go code obtains from its
environment — the decoded request body, the fresh object id produced by
`bson.NewObjectId()`, the current time from `time.Now()`, and whether the
database call fails for infrastructure reasons — are passed as explicit
parameters.  The collection itself is a `List TodoModel`, threaded through
the handlers that write to it.

The document store (mgo / MongoDB) is an external collaborator, so the
effect of its per-collection operations on the stored data is modelled
from the specification's contract; those definitions say so in their doc
comments.
-/

namespace TodoApp

/-- A BSON object id (`bson.ObjectId`).  The 12-byte value is carried as
its 24-character lowercase hexadecimal rendering, which is the form every
part of this program exchanges it in. -/
structure ObjectId where
  hexVal : String
deriving DecidableEq, Repr

/-- `ObjectId.Hex()` from mgo: the hexadecimal string of the id. -/
def ObjectId.hex (o : ObjectId) : String :=
  o.hexVal

/-- Whether a character is whitespace for Go's `strings.TrimSpace`
(`unicode.IsSpace`): space, tab, newline, carriage return, vertical tab,
form feed. -/
def isSpaceChar (c : Char) : Bool :=
  decide (c = ' ' ∨ c = '\t' ∨ c = '\n' ∨ c = '\r' ∨ c.toNat = 11 ∨ c.toNat = 12)

/-- Go's `strings.TrimSpace`: drop leading and trailing whitespace. -/
def trimSpace (s : String) : String :=
  ⟨((s.data.dropWhile isSpaceChar).reverse.dropWhile isSpaceChar).reverse⟩

/-- Lowering of an ASCII letter, as done by Go's hex decode/encode round
trip on the letter digits. -/
def charToLower (c : Char) : Char :=
  if decide (('A' : Char) ≤ c ∧ c ≤ 'Z') then Char.ofNat (c.toNat + 32) else c

/-- Lowercasing of a string, character by character. -/
def strToLower (s : String) : String :=
  ⟨s.data.map charToLower⟩

/-- Whether a character is an ASCII hexadecimal digit, as accepted by Go's
`hex.DecodeString` (0-9, a-f, A-F). -/
def isHexChar (c : Char) : Bool :=
  decide ((('0' : Char) ≤ c ∧ c ≤ '9') ∨ (('a' : Char) ≤ c ∧ c ≤ 'f')
    ∨ (('A' : Char) ≤ c ∧ c ≤ 'F'))

/-- `bson.IsObjectIdHex`: the string has exactly 24 characters, all
hexadecimal digits (a 12-byte value in hex). -/
def isObjectIdHex (s : String) : Bool :=
  s.length == 24 && s.data.all isHexChar

/-- `bson.ObjectIdHex`: parse a hex string into an object id.  Decoding the
hex digits and re-encoding them normalises the letters to lowercase. -/
def objectIdHex (s : String) : ObjectId :=
  ⟨strToLower s⟩

/-- The storage representation of an item (`todoModel` in the Go source):
object id, title, completion flag, creation timestamp.  Time is carried as
a number (nanoseconds since the epoch). -/
structure TodoModel where
  id : ObjectId
  title : String
  completed : Bool
  createdAt : Nat
deriving DecidableEq, Repr

/-- The external wire representation of an item (`todo` in the Go source):
the id rendered as a string. -/
structure Todo where
  id : String
  title : String
  completed : Bool
  createdAt : Nat
deriving DecidableEq, Repr

/-- HTTP statuses the handlers use: `http.StatusOK`, `http.StatusCreated`,
`http.StatusBadRequest`, `http.StatusProcessing`. -/
inductive Status where
  | ok
  | created
  | badRequest
  | processing
deriving DecidableEq, Repr

/-- The numeric code of each status. -/
def Status.code : Status → Nat
  | .ok => 200
  | .created => 201
  | .badRequest => 400
  | .processing => 102

/-- The JSON bodies the handlers render with `rnd.JSON`. -/
inductive Payload where
  /-- A body of the form `renderer.M{"message": m}`. -/
  | message (m : String)
  /-- A body of the form `renderer.M{"message": m, "error": err}`. -/
  | messageErr (m : String)
  /-- The raw decode error rendered directly (`rnd.JSON(w, ..., err)`). -/
  | decodeErr
  /-- A body of the form `renderer.M{"data": todoList}`. -/
  | dataList (l : List Todo)
  /-- A body of the form
  `renderer.M{"message": m, "todo_id": todoId}`. -/
  | createdBody (m : String) (todoId : String)
deriving DecidableEq, Repr

/-- One rendered response: status plus JSON body. -/
structure Response where
  status : Status
  body : Payload
deriving DecidableEq, Repr

/-- The stored collection. -/
abbrev Collection := List TodoModel

/-- Modelled from the spec: the collaborator's `insert(document)` operation
persists one new document in the collection ("one new document
inserted"). -/
def Collection.insert (c : Collection) (tm : TodoModel) : Collection :=
  c ++ [tm]

/-- Modelled from the spec: the collaborator's
`update(filter, replacement-fields)` operation as used with the filter
`{_id: oid}` "replaces the `title` and `completed` fields of the item
whose identifier matches; does not touch `id` or `created_at`", and when
no item with that identifier exists it is "silently a no-op". -/
def Collection.updateFields (c : Collection) (oid : ObjectId)
    (title : String) (completed : Bool) : Collection :=
  c.map fun t => if t.id = oid then { t with title := title, completed := completed } else t

/-- Modelled from the spec: the collaborator's `remove-by-id(id)` operation
"removes the single item with matching identifier.  If no such item
exists, the remove-by-id call itself signals an error". -/
def Collection.removeId (c : Collection) (oid : ObjectId) :
    Except Unit Collection :=
  if c.any (fun t => t.id = oid) then
    .ok (c.filter fun t => ¬ t.id = oid)
  else
    .error ()

/-- The `fetchTodos` handler (GET `/todo/`).  Read-only: it takes the
result of `Find(bson.M{}).All(&todos)` — either the stored items or a
database error — and renders the response.  On success every item is
mapped to its external representation; on failure a processing-status
error body is rendered. -/
def fetchTodos (queryResult : Except Unit Collection) : Response :=
  match queryResult with
  | .error _ => ⟨.processing, .messageErr "Failed to fetch todo"⟩
  | .ok todos =>
      ⟨.ok, .dataList (todos.map fun t => ⟨t.id.hex, t.title, t.completed, t.createdAt⟩)⟩

/-- The `createTodo` handler (POST `/todo/`).  `body` is the result of
decoding the request body (`none` when `json.Decode` fails), `freshId` the
id produced by `bson.NewObjectId()`, `now` the value of `time.Now()`, and
`insertFails` whether the `Insert` call errors.  Returns the rendered
response together with the collection after the request. -/
def createTodo (body : Option Todo) (freshId : ObjectId) (now : Nat)
    (insertFails : Bool) (c : Collection) : Response × Collection :=
  match body with
  | none => (⟨.processing, .decodeErr⟩, c)
  | some t =>
      if t.title = "" then
        (⟨.badRequest, .message "The title is required"⟩, c)
      else
        let tm : TodoModel := ⟨freshId, t.title, false, now⟩
        if insertFails then
          (⟨.processing, .messageErr "Failed to save todo"⟩, c)
        else
          (⟨.created, .createdBody "Todo created successfully" tm.id.hex⟩, c.insert tm)

/-- The `updateTodo` handler of `src/main.go` (PUT `/todo/{id}`).  The path
parameter is trimmed, checked for object-id hex format, the body decoded,
the title checked for emptiness, and then the `Update` call issued
(`updateFails` is an infrastructure failure of that call).  The response
component is an `Option` because this variant's success path falls through
the end of the function without rendering anything: `none` means the
handler returned without writing a response. -/
def updateTodo (rawId : String) (body : Option Todo) (updateFails : Bool)
    (c : Collection) : Option Response × Collection :=
  let id := trimSpace rawId
  if ¬ isObjectIdHex id then
    (some ⟨.badRequest, .message "The ID is invalid"⟩, c)
  else
    match body with
    | none => (some ⟨.processing, .decodeErr⟩, c)
    | some t =>
        if t.title = "" then
          (some ⟨.badRequest, .message "The Title field is required"⟩, c)
        else if updateFails then
          (some ⟨.processing, .message "Failed to update todo"⟩, c)
        else
          (none, c.updateFields (objectIdHex id) t.title t.completed)

/-- The `updateTodo` handler of the second observed variant
(`src/unnamed/part_000`).  Identical control flow, except that the
infrastructure-failure body also carries the error, and the success path
renders `{"message": "Todo updated successfully"}` with status 200. -/
def updateTodoPart0 (rawId : String) (body : Option Todo) (updateFails : Bool)
    (c : Collection) : Response × Collection :=
  let id := trimSpace rawId
  if ¬ isObjectIdHex id then
    (⟨.badRequest, .message "The id is invalid"⟩, c)
  else
    match body with
    | none => (⟨.processing, .decodeErr⟩, c)
    | some t =>
        if t.title = "" then
          (⟨.badRequest, .message "The title field is required"⟩, c)
        else if updateFails then
          (⟨.processing, .messageErr "Failed to update todo"⟩, c)
        else
          (⟨.ok, .message "Todo updated successfully"⟩,
            c.updateFields (objectIdHex id) t.title t.completed)

/-- The `deleteTodo` handler (DELETE `/todo/{id}`).  The path parameter is
trimmed and checked for object-id hex format, then `RemoveId` is issued;
`dbFails` is an infrastructure failure of that call (which errors on its
own when no item matches). -/
def deleteTodo (rawId : String) (dbFails : Bool) (c : Collection) :
    Response × Collection :=
  let id := trimSpace rawId
  if ¬ isObjectIdHex id then
    (⟨.badRequest, .message "The id is invalid"⟩, c)
  else
    match (if dbFails then .error () else c.removeId (objectIdHex id)) with
    | .error _ => (⟨.processing, .messageErr "Failed to delete todo"⟩, c)
    | .ok c2 => (⟨.ok, .message "Todo deleted successfully"⟩, c2)

/-- The invariant of the data model: every stored item has a non-empty
title. -/
def titlesNonEmpty (c : Collection) : Prop :=
  ∀ t ∈ c, t.title ≠ ""

/-! ### Helper lemmas -/

/-- The collection after `createTodo` is either unchanged or the old
collection with one new document appended, that document carrying the
request's (non-empty) title, `completed := false`, the fresh id and the
current time. -/
lemma createTodo_state (body : Option Todo) (freshId : ObjectId) (now : Nat)
    (insertFails : Bool) (c : Collection) :
    (createTodo body freshId now insertFails c).2 = c
    ∨ ∃ t, body = some t ∧ ¬ t.title = ""
        ∧ (createTodo body freshId now insertFails c).2
            = c ++ [⟨freshId, t.title, false, now⟩] := by
  cases body with
  | none => left; rfl
  | some t =>
    by_cases ht : t.title = ""
    · left; simp [createTodo, ht]
    · by_cases hins : insertFails
      · left; simp [createTodo, ht, hins]
      · right
        exact ⟨t, rfl, ht, by simp [createTodo, ht, hins, Collection.insert]⟩

/-- The collection after `updateTodo` is either unchanged or rewritten by
`Collection.updateFields` with the request's (non-empty) title. -/
lemma updateTodo_state (rawId : String) (body : Option Todo)
    (updateFails : Bool) (c : Collection) :
    (updateTodo rawId body updateFails c).2 = c
    ∨ ∃ t, body = some t ∧ ¬ t.title = ""
        ∧ (updateTodo rawId body updateFails c).2
            = c.updateFields (objectIdHex (trimSpace rawId)) t.title t.completed := by
  by_cases hid : isObjectIdHex (trimSpace rawId)
  · cases body with
    | none => left; simp [updateTodo, hid]
    | some t =>
      by_cases ht : t.title = ""
      · left; simp [updateTodo, hid, ht]
      · by_cases hf : updateFails
        · left; simp [updateTodo, hid, ht, hf]
        · right; exact ⟨t, rfl, ht, by simp [updateTodo, hid, ht, hf]⟩
  · left; simp [updateTodo, hid]

/-- The collection after `deleteTodo` is either unchanged or the old
collection with the matching items filtered out. -/
lemma deleteTodo_state (rawId : String) (dbFails : Bool) (c : Collection) :
    (deleteTodo rawId dbFails c).2 = c
    ∨ (deleteTodo rawId dbFails c).2
        = c.filter fun t => ¬ t.id = objectIdHex (trimSpace rawId) := by
  by_cases hid : isObjectIdHex (trimSpace rawId)
  · by_cases hf : dbFails
    · left; simp [deleteTodo, hid, hf]
    · by_cases hmem : c.any (fun t => t.id = objectIdHex (trimSpace rawId))
      · right; simp [deleteTodo, Collection.removeId, hid, hf, hmem]
      · left; simp [deleteTodo, Collection.removeId, hid, hf, hmem]
  · left; simp [deleteTodo, hid]

/-- Rewriting title/completed keeps the invariant when the new title is
non-empty. -/
lemma titlesNonEmpty_updateFields (c : Collection) (oid : ObjectId)
    (title : String) (completed : Bool) (h : titlesNonEmpty c)
    (ht : title ≠ "") :
    titlesNonEmpty (c.updateFields oid title completed) := by
  intro u hu
  simp only [Collection.updateFields, List.mem_map] at hu
  obtain ⟨a, ha, rfl⟩ := hu
  by_cases hmatch : a.id = oid
  · simpa [hmatch] using ht
  · simpa [hmatch] using h a ha

/-! ### Claim theorems -/

/-- C1: the claim says every update request passing validation whose
database call succeeds receives a success response; in `src/main.go` the
success path of `updateTodo` falls through without rendering any response
(the handler's response component is `none`), while the other observed
variant (`src/unnamed/part_000`) renders a 200 "Todo updated successfully"
on the very same input.  The claim matches the spec's stated intent and
`part_000`, and `src/main.go` is the defective variant the spec warns
about. -/
theorem updateTodo_success_path_writes_no_response :
    (updateTodo "aaaaaaaaaaaaaaaaaaaaaaaa" (some ⟨"", "buy milk", true, 0⟩)
        false [⟨⟨"aaaaaaaaaaaaaaaaaaaaaaaa"⟩, "old", false, 7⟩]).1 = none
  ∧ (updateTodoPart0 "aaaaaaaaaaaaaaaaaaaaaaaa" (some ⟨"", "buy milk", true, 0⟩)
        false [⟨⟨"aaaaaaaaaaaaaaaaaaaaaaaa"⟩, "old", false, 7⟩]).1
      = ⟨.ok, .message "Todo updated successfully"⟩ := by
  constructor <;> decide

/-- C3: a create request whose body decodes to an object with an empty
title is answered with status 400 (`badRequest`) and a descriptive
message, and the collection is exactly what it was before. -/
theorem createTodo_empty_title_rejected (t : Todo) (freshId : ObjectId)
    (now : Nat) (insertFails : Bool) (c : Collection) (ht : t.title = "") :
    createTodo (some t) freshId now insertFails c
      = (⟨.badRequest, .message "The title is required"⟩, c)
    ∧ Status.badRequest.code = 400 := by
  exact ⟨by simp [createTodo, ht], rfl⟩

/-- Witness for C3 at a concrete request. -/
theorem createTodo_empty_title_rejected_witness :
    createTodo (some ⟨"", "", true, 5⟩) ⟨"ffffffffffffffffffffffff"⟩ 9 false
        [⟨⟨"aaaaaaaaaaaaaaaaaaaaaaaa"⟩, "old", false, 7⟩]
      = (⟨.badRequest, .message "The title is required"⟩,
        [⟨⟨"aaaaaaaaaaaaaaaaaaaaaaaa"⟩, "old", false, 7⟩])
    ∧ Status.badRequest.code = 400 :=
  createTodo_empty_title_rejected ⟨"", "", true, 5⟩ ⟨"ffffffffffffffffffffffff"⟩ 9
    false [⟨⟨"aaaaaaaaaaaaaaaaaaaaaaaa"⟩, "old", false, 7⟩] rfl

/-- C4: a create request with a decodable body and non-empty title whose
insert succeeds persists exactly one new document with the fresh id,
the request's title, `completed = false` and `created_at = now` — whatever
`completed`, `id` or `created_at` the body supplied — and responds with
status 201 carrying the new id in hex form. -/
theorem createTodo_success_shape (t : Todo) (freshId : ObjectId) (now : Nat)
    (c : Collection) (ht : t.title ≠ "") :
    createTodo (some t) freshId now false c
      = (⟨.created, .createdBody "Todo created successfully" freshId.hex⟩,
        c ++ [⟨freshId, t.title, false, now⟩])
    ∧ Status.created.code = 201 := by
  exact ⟨by simp [createTodo, ht, Collection.insert, ObjectId.hex], rfl⟩

/-- Witness for C4: the body's `completed`, `id` and `created_at` are all
set and all ignored. -/
theorem createTodo_success_shape_witness :
    createTodo (some ⟨"deadbeef", "buy milk", true, 1234⟩)
        ⟨"ffffffffffffffffffffffff"⟩ 9 false []
      = (⟨.created,
          .createdBody "Todo created successfully" "ffffffffffffffffffffffff"⟩,
        [⟨⟨"ffffffffffffffffffffffff"⟩, "buy milk", false, 9⟩])
    ∧ Status.created.code = 201 :=
  createTodo_success_shape ⟨"deadbeef", "buy milk", true, 1234⟩
    ⟨"ffffffffffffffffffffffff"⟩ 9 [] (by decide)

/-- C6: when the query succeeds, the list response is a 200 whose `data`
payload maps every stored item to its external representation (hex id,
title, completed, created_at); on the empty collection it is a 200 with an
empty `data` sequence, not an error. -/
theorem fetchTodos_success_maps_all (todos : Collection) :
    fetchTodos (Except.ok todos)
      = ⟨.ok, .dataList (todos.map fun t => ⟨t.id.hex, t.title, t.completed, t.createdAt⟩)⟩
    ∧ fetchTodos (Except.ok []) = ⟨.ok, .dataList []⟩ := by
  exact ⟨rfl, rfl⟩

/-- C2: a successful update (valid id, decodable body, non-empty title,
database call succeeds) leaves every stored item's `id` and `created_at`
exactly as they were: position by position the `id` column and the
`created_at` column of the collection are unchanged. -/
theorem updateTodo_preserves_id_createdAt (rawId : String) (t : Todo)
    (c : Collection) (hid : isObjectIdHex (trimSpace rawId) = true)
    (ht : t.title ≠ "") :
    ((updateTodo rawId (some t) false c).2).map TodoModel.id = c.map TodoModel.id
    ∧ ((updateTodo rawId (some t) false c).2).map TodoModel.createdAt
        = c.map TodoModel.createdAt := by
  have hstate : (updateTodo rawId (some t) false c).2
      = c.updateFields (objectIdHex (trimSpace rawId)) t.title t.completed := by
    simp [updateTodo, hid, ht]
  rw [hstate]
  constructor <;>
  · simp only [Collection.updateFields, List.map_map]
    refine List.map_congr_left ?_
    intro a _
    by_cases hmatch : a.id = objectIdHex (trimSpace rawId) <;>
      simp [hmatch, Function.comp]

/-- Witness for C2: updating the first of two items rewrites only its
title and completed flag; ids and creation times of both stay put. -/
theorem updateTodo_preserves_id_createdAt_witness :
    ((updateTodo "aaaaaaaaaaaaaaaaaaaaaaaa" (some ⟨"", "new title", true, 0⟩)
        false [⟨⟨"aaaaaaaaaaaaaaaaaaaaaaaa"⟩, "old", false, 7⟩,
               ⟨⟨"bbbbbbbbbbbbbbbbbbbbbbbb"⟩, "other", true, 8⟩]).2).map TodoModel.id
      = [⟨⟨"aaaaaaaaaaaaaaaaaaaaaaaa"⟩, "old", false, 7⟩,
         ⟨⟨"bbbbbbbbbbbbbbbbbbbbbbbb"⟩, "other", true, 8⟩].map TodoModel.id
    ∧ ((updateTodo "aaaaaaaaaaaaaaaaaaaaaaaa" (some ⟨"", "new title", true, 0⟩)
        false [⟨⟨"aaaaaaaaaaaaaaaaaaaaaaaa"⟩, "old", false, 7⟩,
               ⟨⟨"bbbbbbbbbbbbbbbbbbbbbbbb"⟩, "other", true, 8⟩]).2).map TodoModel.createdAt
      = [⟨⟨"aaaaaaaaaaaaaaaaaaaaaaaa"⟩, "old", false, 7⟩,
         ⟨⟨"bbbbbbbbbbbbbbbbbbbbbbbb"⟩, "other", true, 8⟩].map TodoModel.createdAt :=
  updateTodo_preserves_id_createdAt "aaaaaaaaaaaaaaaaaaaaaaaa"
    ⟨"", "new title", true, 0⟩
    [⟨⟨"aaaaaaaaaaaaaaaaaaaaaaaa"⟩, "old", false, 7⟩,
     ⟨⟨"bbbbbbbbbbbbbbbbbbbbbbbb"⟩, "other", true, 8⟩]
    (by decide) (by decide)

/-- C5: update validation runs in order — malformed id first (400, state
untouched and independent of the database outcome), then undecodable body
(processing-status decode error, state untouched), then empty title (400,
state untouched).  The first failing check decides the response. -/
theorem updateTodo_validation_order (rawId : String) (body : Option Todo)
    (updateFails : Bool) (c : Collection) :
    (isObjectIdHex (trimSpace rawId) = false →
      updateTodo rawId body updateFails c
        = (some ⟨.badRequest, .message "The ID is invalid"⟩, c))
    ∧ (isObjectIdHex (trimSpace rawId) = true → body = none →
      updateTodo rawId body updateFails c = (some ⟨.processing, .decodeErr⟩, c))
    ∧ (∀ t, isObjectIdHex (trimSpace rawId) = true → body = some t →
      t.title = "" →
      updateTodo rawId body updateFails c
        = (some ⟨.badRequest, .message "The Title field is required"⟩, c)) := by
  refine ⟨fun hid => ?_, fun hid hb => ?_, fun t hid hb ht => ?_⟩
  · simp [updateTodo, hid]
  · subst hb; simp [updateTodo, hid]
  · subst hb; simp [updateTodo, hid, ht]

/-- Witness for C5: the three rejection branches at concrete requests. -/
theorem updateTodo_validation_order_witness :
    updateTodo "abc" (some ⟨"", "x", true, 0⟩) false []
      = (some ⟨.badRequest, .message "The ID is invalid"⟩, [])
    ∧ updateTodo "aaaaaaaaaaaaaaaaaaaaaaaa" none false []
      = (some ⟨.processing, .decodeErr⟩, [])
    ∧ updateTodo "aaaaaaaaaaaaaaaaaaaaaaaa" (some ⟨"", "", true, 0⟩) false []
      = (some ⟨.badRequest, .message "The Title field is required"⟩, []) :=
  ⟨(updateTodo_validation_order "abc" (some ⟨"", "x", true, 0⟩) false []).1
      (by decide),
   (updateTodo_validation_order "aaaaaaaaaaaaaaaaaaaaaaaa" none false []).2.1
      (by decide) rfl,
   (updateTodo_validation_order "aaaaaaaaaaaaaaaaaaaaaaaa"
      (some ⟨"", "", true, 0⟩) false []).2.2 ⟨"", "", true, 0⟩
      (by decide) rfl rfl⟩

/-- C7: for a delete request whose id is well-formed after trimming and
with no infrastructure failure, if some stored item carries that id the
handler removes it and answers 200 "Todo deleted successfully"; if no
stored item carries it, the remove-by-id call signals an error and the
handler answers with the processing-status error body, not a silent
success. -/
theorem deleteTodo_found_and_not_found (rawId : String) (c : Collection)
    (hid : isObjectIdHex (trimSpace rawId) = true) :
    (c.any (fun t => t.id = objectIdHex (trimSpace rawId)) = true →
      deleteTodo rawId false c
        = (⟨.ok, .message "Todo deleted successfully"⟩,
          c.filter fun t => ¬ t.id = objectIdHex (trimSpace rawId)))
    ∧ (c.any (fun t => t.id = objectIdHex (trimSpace rawId)) = false →
      deleteTodo rawId false c
        = (⟨.processing, .messageErr "Failed to delete todo"⟩, c)) := by
  constructor <;> intro hmem <;>
    simp [deleteTodo, Collection.removeId, hid, hmem]

/-- Witness for C7: deleting the only stored item succeeds and empties the
collection; deleting a well-formed but absent id yields the error
response and changes nothing. -/
theorem deleteTodo_found_and_not_found_witness :
    deleteTodo "aaaaaaaaaaaaaaaaaaaaaaaa" false
        [⟨⟨"aaaaaaaaaaaaaaaaaaaaaaaa"⟩, "old", false, 7⟩]
      = (⟨.ok, .message "Todo deleted successfully"⟩, [])
    ∧ deleteTodo "bbbbbbbbbbbbbbbbbbbbbbbb" false
        [⟨⟨"aaaaaaaaaaaaaaaaaaaaaaaa"⟩, "old", false, 7⟩]
      = (⟨.processing, .messageErr "Failed to delete todo"⟩,
        [⟨⟨"aaaaaaaaaaaaaaaaaaaaaaaa"⟩, "old", false, 7⟩]) :=
  ⟨(deleteTodo_found_and_not_found "aaaaaaaaaaaaaaaaaaaaaaaa"
      [⟨⟨"aaaaaaaaaaaaaaaaaaaaaaaa"⟩, "old", false, 7⟩] (by decide)).1 (by decide),
   (deleteTodo_found_and_not_found "bbbbbbbbbbbbbbbbbbbbbbbb"
      [⟨⟨"aaaaaaaaaaaaaaaaaaaaaaaa"⟩, "old", false, 7⟩] (by decide)).2 (by decide)⟩

/-- C8: starting from a collection in which every item has a non-empty
title, every handler that writes to the collection preserves that
invariant, for every request: create only inserts after rejecting the
empty title, update only rewrites titles after rejecting the empty title,
and delete only removes items.  (`fetchTodos` takes no collection and
returns none: it is read-only by construction.) -/
theorem handlers_preserve_titlesNonEmpty (c : Collection)
    (h : titlesNonEmpty c) :
    (∀ body freshId now insertFails,
      titlesNonEmpty (createTodo body freshId now insertFails c).2)
    ∧ (∀ rawId body updateFails,
      titlesNonEmpty (updateTodo rawId body updateFails c).2)
    ∧ (∀ rawId dbFails, titlesNonEmpty (deleteTodo rawId dbFails c).2) := by
  refine ⟨fun body freshId now insertFails => ?_,
          fun rawId body updateFails => ?_, fun rawId dbFails => ?_⟩
  · rcases createTodo_state body freshId now insertFails c with hs | ⟨t, _, ht, hs⟩
    · rw [hs]; exact h
    · rw [hs]
      intro u hu
      rcases List.mem_append.1 hu with hu | hu
      · exact h u hu
      · simpa using List.mem_singleton.1 hu ▸ ht
  · rcases updateTodo_state rawId body updateFails c with hs | ⟨t, _, ht, hs⟩
    · rw [hs]; exact h
    · rw [hs]
      exact titlesNonEmpty_updateFields c _ _ _ h ht
  · rcases deleteTodo_state rawId dbFails c with hs | hs
    · rw [hs]; exact h
    · rw [hs]
      intro u hu
      exact h u (List.mem_of_mem_filter hu)

/-- Witness for C8: from a one-item collection with a non-empty title,
each of the three writing handlers leaves a collection whose titles are
all non-empty. -/
theorem handlers_preserve_titlesNonEmpty_witness :
    titlesNonEmpty ((createTodo (some ⟨"", "buy milk", true, 3⟩)
        ⟨"ffffffffffffffffffffffff"⟩ 9 false
        [⟨⟨"aaaaaaaaaaaaaaaaaaaaaaaa"⟩, "old", false, 7⟩]).2)
    ∧ titlesNonEmpty ((updateTodo "aaaaaaaaaaaaaaaaaaaaaaaa"
        (some ⟨"", "new", true, 0⟩) false
        [⟨⟨"aaaaaaaaaaaaaaaaaaaaaaaa"⟩, "old", false, 7⟩]).2)
    ∧ titlesNonEmpty ((deleteTodo "aaaaaaaaaaaaaaaaaaaaaaaa" false
        [⟨⟨"aaaaaaaaaaaaaaaaaaaaaaaa"⟩, "old", false, 7⟩]).2) :=
  ⟨(handlers_preserve_titlesNonEmpty
      [⟨⟨"aaaaaaaaaaaaaaaaaaaaaaaa"⟩, "old", false, 7⟩]
      (by simp [titlesNonEmpty])).1 (some ⟨"", "buy milk", true, 3⟩)
      ⟨"ffffffffffffffffffffffff"⟩ 9 false,
   (handlers_preserve_titlesNonEmpty
      [⟨⟨"aaaaaaaaaaaaaaaaaaaaaaaa"⟩, "old", false, 7⟩]
      (by simp [titlesNonEmpty])).2.1 "aaaaaaaaaaaaaaaaaaaaaaaa"
      (some ⟨"", "new", true, 0⟩) false,
   (handlers_preserve_titlesNonEmpty
      [⟨⟨"aaaaaaaaaaaaaaaaaaaaaaaa"⟩, "old", false, 7⟩]
      (by simp [titlesNonEmpty])).2.2 "aaaaaaaaaaaaaaaaaaaaaaaa" false⟩

/-- C9: applying the same successful update (same id, same payload) a
second time leaves the collection exactly where the first application left
it — rewriting title and completed to values they already hold changes
nothing. -/
theorem updateTodo_idempotent (rawId : String) (t : Todo) (c : Collection)
    (hid : isObjectIdHex (trimSpace rawId) = true) (ht : t.title ≠ "") :
    (updateTodo rawId (some t) false
        ((updateTodo rawId (some t) false c).2)).2
      = (updateTodo rawId (some t) false c).2 := by
  have hstate : ∀ d : Collection, (updateTodo rawId (some t) false d).2
      = d.updateFields (objectIdHex (trimSpace rawId)) t.title t.completed := by
    intro d; simp [updateTodo, hid, ht]
  rw [hstate, hstate]
  simp only [Collection.updateFields, List.map_map]
  refine List.map_congr_left ?_
  intro a _
  by_cases hmatch : a.id = objectIdHex (trimSpace rawId) <;>
    simp [hmatch, Function.comp]

/-- Witness for C9 at a concrete collection and payload. -/
theorem updateTodo_idempotent_witness :
    (updateTodo "aaaaaaaaaaaaaaaaaaaaaaaa" (some ⟨"", "new", true, 0⟩) false
        ((updateTodo "aaaaaaaaaaaaaaaaaaaaaaaa" (some ⟨"", "new", true, 0⟩)
          false [⟨⟨"aaaaaaaaaaaaaaaaaaaaaaaa"⟩, "old", false, 7⟩]).2)).2
      = (updateTodo "aaaaaaaaaaaaaaaaaaaaaaaa" (some ⟨"", "new", true, 0⟩)
          false [⟨⟨"aaaaaaaaaaaaaaaaaaaaaaaa"⟩, "old", false, 7⟩]).2 :=
  updateTodo_idempotent "aaaaaaaaaaaaaaaaaaaaaaaa" ⟨"", "new", true, 0⟩
    [⟨⟨"aaaaaaaaaaaaaaaaaaaaaaaa"⟩, "old", false, 7⟩] (by decide) (by decide)

/-- C10: both `updateTodo` and `deleteTodo` trim the path identifier
before the hex-format check, so a request whose identifier is valid after
trimming is never rejected as malformed: update proceeds to rewrite the
item addressed by the trimmed id (and never renders the invalid-id body),
and delete issues the remove-by-id call for the trimmed id (and never
renders a 400). -/
theorem trimmed_id_accepted (rawId : String)
    (hid : isObjectIdHex (trimSpace rawId) = true) :
    (∀ t c, t.title ≠ "" →
      updateTodo rawId (some t) false c
        = (none, c.updateFields (objectIdHex (trimSpace rawId))
            t.title t.completed))
    ∧ (∀ body updateFails c,
      (updateTodo rawId body updateFails c).1
        ≠ some ⟨.badRequest, .message "The ID is invalid"⟩)
    ∧ (∀ c, deleteTodo rawId false c
        = match c.removeId (objectIdHex (trimSpace rawId)) with
          | .ok c2 => (⟨.ok, .message "Todo deleted successfully"⟩, c2)
          | .error _ => (⟨.processing, .messageErr "Failed to delete todo"⟩, c))
    ∧ (∀ dbFails c, (deleteTodo rawId dbFails c).1.status ≠ .badRequest) := by
  refine ⟨fun t c ht => ?_, fun body updateFails c => ?_, fun c => ?_,
          fun dbFails c => ?_⟩
  · simp [updateTodo, hid, ht]
  · cases body with
    | none => simp [updateTodo, hid]
    | some t =>
      by_cases ht : t.title = ""
      · simp [updateTodo, hid, ht]
      · by_cases hf : updateFails <;> simp [updateTodo, hid, ht, hf]
  · simp only [deleteTodo, hid]
    rw [if_neg (by simp [hid])]
    rcases hrem : Collection.removeId c (objectIdHex (trimSpace rawId)) with e | c2 <;>
      simp [hrem]
  · by_cases hf : dbFails
    · simp [deleteTodo, hid, hf]
    · simp only [deleteTodo, hid]
      rw [if_neg (by simp [hid])]
      rcases hrem : Collection.removeId c (objectIdHex (trimSpace rawId)) with e | c2 <;>
        simp [hrem, hf]

/-- Witness for C10: an identifier surrounded by spaces is accepted by
both handlers once trimmed, and addresses the stored item. -/
theorem trimmed_id_accepted_witness :
    updateTodo "  aaaaaaaaaaaaaaaaaaaaaaaa  " (some ⟨"", "new", true, 0⟩) false
        [⟨⟨"aaaaaaaaaaaaaaaaaaaaaaaa"⟩, "old", false, 7⟩]
      = (none, [⟨⟨"aaaaaaaaaaaaaaaaaaaaaaaa"⟩, "new", true, 7⟩])
    ∧ (deleteTodo "  aaaaaaaaaaaaaaaaaaaaaaaa  " false
        [⟨⟨"aaaaaaaaaaaaaaaaaaaaaaaa"⟩, "old", false, 7⟩]).1.status
      ≠ .badRequest :=
  ⟨(trimmed_id_accepted "  aaaaaaaaaaaaaaaaaaaaaaaa  " (by decide)).1
      ⟨"", "new", true, 0⟩ [⟨⟨"aaaaaaaaaaaaaaaaaaaaaaaa"⟩, "old", false, 7⟩]
      (by decide),
   (trimmed_id_accepted "  aaaaaaaaaaaaaaaaaaaaaaaa  " (by decide)).2.2.2 false
      [⟨⟨"aaaaaaaaaaaaaaaaaaaaaaaa"⟩, "old", false, 7⟩]⟩

end TodoApp
